import Mathlib

/-!
Shallow embedding of the container lifecycle controller of this repository:
the generic Container manager (create-or-reuse, start, stability window,
stop, cleanup, port lookup, diagnostics) and the workload readiness probes
of the SQL Server and ActiveMQ wrappers.  The embedding follows the
docker-SDK implementation (the Container half of src/container/sqlserver.go,
which is line-for-line parallel to src/unnamed/part_000).  The Docker
engine is modelled as an oracle record: one field per engine capability the
code uses.  Every controller operation also returns the list of engine
calls it issued, so theorems can speak about which calls were and were not
made, and polling loops additionally report how many inspections, predicate
attempts and interval sleeps they performed.
-/

namespace container

/-- Decidable equality for engine call results. -/
instance exceptDecEq {ε α : Type} [DecidableEq ε] [DecidableEq α] :
    DecidableEq (Except ε α) := fun x y =>
  match x, y with
  | .error a, .error b =>
    match decEq a b with
    | isTrue h => isTrue (h ▸ rfl)
    | isFalse h => isFalse fun hc => h (by injection hc)
  | .error _, .ok _ => isFalse fun hc => Except.noConfusion hc
  | .ok _, .error _ => isFalse fun hc => Except.noConfusion hc
  | .ok a, .ok b =>
    match decEq a b with
    | isTrue h => isTrue (h ▸ rfl)
    | isFalse h => isFalse fun hc => h (by injection hc)

/-- Mount is a value object describing one bind or volume mount. -/
structure Mount where
  source : String
  target : String
  type : String
  readOnly : Bool
deriving DecidableEq

/-- Config holds the container configuration: image, name, port requests,
environment, mounts and the reuse flag.  The Go Ports map is modelled as an
association list. -/
structure Config where
  image : String
  name : String
  ports : List (String × String)
  env : List String
  mounts : List Mount
  reuse : Bool
deriving DecidableEq

/-- Container is the mutable handle: the configuration plus the assigned
container identifier (empty until created or located) and the running flag. -/
structure Container where
  config : Config
  containerID : String
  isRunning : Bool
deriving DecidableEq

/-- CState is the engine reported state of a container (docker inspect State). -/
structure CState where
  running : Bool
  status : String
  exitCode : Int
  errMsg : String
  startedAt : String
  finishedAt : String
deriving DecidableEq

/-- PsEntry is one entry of the engine container listing: identifier, the
list of names (each name possibly carrying a leading slash) and the status
text. -/
structure PsEntry where
  id : String
  names : List String
  status : String
deriving DecidableEq

/-- ReadResult is the outcome of the single bounded read of the log stream:
a plain successful read, a read ending with EOF, or a non-EOF read failure. -/
inductive ReadResult where
  | bytes (data : String)
  | eofRead (data : String)
  | fail (msg : String)
deriving DecidableEq

/-- Engine is the oracle for the Docker engine boundary, one field per
engine capability the controller uses.  inspectAt is the time indexed state
inspection sampled by the polling stability window (check number to
reported state); cancelledAt is the context cancellation signal sampled
before each polling attempt. -/
structure Engine where
  listAll : Except String (List PsEntry)
  imagePresent : Bool
  pullImage : Except String Unit
  createContainer : Except String String
  startContainer : String → Except String Unit
  stopContainer : String → Except String Unit
  removeContainer : String → Except String Unit
  inspectState : String → Except String CState
  inspectAt : Nat → Except String CState
  inspectPorts : String → Except String (List (String × List String))
  containerLogs : String → Except String Unit
  readLogs : ReadResult
  cancelledAt : Nat → Bool

/-- EngineCall records one call issued to the engine. -/
inductive EngineCall where
  | listContainers
  | imageInspect (image : String)
  | imagePull (image : String)
  | createCall
  | startCall (id : String)
  | stopCall (id : String) (graceSeconds : Nat)
  | removeCall (id : String) (force : Bool)
  | inspectCall (id : String)
deriving DecidableEq

/-- isCreateCall classifies create calls in a trace. -/
def isCreateCall : EngineCall → Bool
  | .createCall => true
  | _ => false

/-- isStartCall classifies start calls in a trace. -/
def isStartCall : EngineCall → Bool
  | .startCall _ => true
  | _ => false

/-- isInspectCall classifies state inspection calls in a trace. -/
def isInspectCall : EngineCall → Bool
  | .inspectCall _ => true
  | _ => false

/-- isRemoveCall classifies remove calls in a trace. -/
def isRemoveCall : EngineCall → Bool
  | .removeCall _ _ => true
  | _ => false

/-- stabilityPeriod of waitForStableState, in milliseconds (3 seconds). -/
def stabilityPeriodMs : Nat := 3000

/-- checkInterval of waitForStableState, in milliseconds (500ms). -/
def checkIntervalMs : Nat := 500

/-- maxChecks, computed exactly as in the source:
int(stabilityPeriod / checkInterval). -/
def maxChecks : Nat := stabilityPeriodMs / checkIntervalMs

/-- StableResult is the outcome of the stability window: completed with all
checks running, cancelled, inspection failure, or the container was
observed not running. -/
inductive StableResult where
  | ok
  | cancelledRes
  | inspectError (msg : String)
  | exited (status : String) (exitCode : Int)
deriving DecidableEq

/-- StableOut packages the outcome of the stability window together with
the number of state inspections issued and the number of interval sleeps
performed. -/
structure StableOut where
  result : StableResult
  inspections : Nat
  sleeps : Nat
deriving DecidableEq

/-- stableLoopAux is the loop of waitForStableState: at each iteration the
cancellation signal is checked first; then the state is inspected (an
inspection failure aborts); a not-running report aborts at once; a running
report sleeps one interval and continues.  Exhausting the window is
success.  fuel is the number of remaining iterations, i the current check
index, ins and sl the inspection and sleep counters. -/
def stableLoopAux (inspectAt : Nat → Except String CState) (cancelled : Nat → Bool) :
    Nat → Nat → Nat → Nat → StableOut
  | 0, _, ins, sl => ⟨.ok, ins, sl⟩
  | fuel + 1, i, ins, sl =>
    if cancelled i = true then ⟨.cancelledRes, ins, sl⟩
    else
      match inspectAt i with
      | .error m => ⟨.inspectError m, ins + 1, sl⟩
      | .ok st =>
        if st.running = false then ⟨.exited st.status st.exitCode, ins + 1, sl⟩
        else stableLoopAux inspectAt cancelled fuel (i + 1) (ins + 1) (sl + 1)

/-- waitForStableState polls the engine state maxChecks times as in the
source loop. -/
def waitForStableState (inspectAt : Nat → Except String CState)
    (cancelled : Nat → Bool) : StableOut :=
  stableLoopAux inspectAt cancelled maxChecks 0 0 0

/-- stableErrMsg is the error string waitForStableState returns for each
failing outcome (the cancellation case propagates the context error, whose
Go text is context canceled). -/
def stableErrMsg : StableResult → String
  | .ok => ""
  | .cancelledRes => "context canceled"
  | .inspectError m => "failed to inspect container: " ++ m
  | .exited status code =>
    "container exited with status " ++ status ++ " (exit code: " ++ toString code ++ ")"

/-- ReadyResult is the outcome of a readiness probe loop. -/
inductive ReadyResult where
  | ok
  | cancelledRes
  | exhausted (msg : String)
deriving DecidableEq

/-- ReadyOut packages the probe outcome with the number of predicate
attempts, interval sleeps and periodic diagnostic dumps performed. -/
structure ReadyOut where
  result : ReadyResult
  attempts : Nat
  sleeps : Nat
  dumps : Nat
deriving DecidableEq

/-- readyLoopAux is the shared readiness loop shape of waitForReady in the
ActiveMQ and SQL Server wrappers: check cancellation before each attempt,
invoke the predicate, on the ActiveMQ variant dump diagnostics every 10th
failed attempt, sleep the fixed delay between failed attempts but never
after the last, and on exhaustion return the descriptive error naming the
budget. -/
def readyLoopAux (name : String) (withDumps : Bool) (maxRetries : Nat)
    (pred cancelled : Nat → Bool) : Nat → Nat → Nat → Nat → Nat → ReadyOut
  | 0, _, attempts, sleeps, dumps =>
    ⟨.exhausted (name ++ " failed to become ready after " ++ toString maxRetries ++ " attempts"),
      attempts, sleeps, dumps⟩
  | fuel + 1, i, attempts, sleeps, dumps =>
    if cancelled i = true then ⟨.cancelledRes, attempts, sleeps, dumps⟩
    else if pred i = true then ⟨.ok, attempts + 1, sleeps, dumps⟩
    else
      readyLoopAux name withDumps maxRetries pred cancelled fuel (i + 1) (attempts + 1)
        (if i < maxRetries - 1 then sleeps + 1 else sleeps)
        (if withDumps = true ∧ 0 < i ∧ (i + 1) % 10 = 0 then dumps + 1 else dumps)

/-- waitForReadyGen runs the readiness loop with budget maxRetries starting
at attempt index 0. -/
def waitForReadyGen (name : String) (withDumps : Bool) (maxRetries : Nat)
    (pred cancelled : Nat → Bool) : ReadyOut :=
  readyLoopAux name withDumps maxRetries pred cancelled maxRetries 0 0 0 0

/-- waitForReady of the ActiveMQ wrapper: 60 attempts, 2 second delay, with
the periodic log dump every 10th failed attempt. -/
def activemqWaitForReady (pred cancelled : Nat → Bool) : ReadyOut :=
  waitForReadyGen "ActiveMQ" true 60 pred cancelled

/-- waitForReady of the SQL Server wrapper: 30 attempts, 2 second delay, no
periodic dump. -/
def sqlserverWaitForReady (pred cancelled : Nat → Bool) : ReadyOut :=
  waitForReadyGen "SQL Server" false 30 pred cancelled

/-- hasUpChars reports whether the character list contains the two
character sequence U then p. -/
def hasUpChars : List Char → Bool
  | 'U' :: 'p' :: _ => true
  | _ :: rest => hasUpChars rest
  | [] => false

/-- statusHasUp is the Go substring test Contains(status, "Up"),
specialised to the constant pattern used by the source. -/
def statusHasUp (s : String) : Bool := hasUpChars s.data

/-- trimSlash strips one leading slash when present, as the Go code does on
engine-reported container names. -/
def trimSlash (s : String) : String :=
  match s.data with
  | '/' :: rest => String.mk rest
  | _ => s

/-- findMatchIn scans the engine listing for the first entry one of whose
names, after stripping the leading slash, equals the configured name
(exact, case sensitive comparison). -/
def findMatchIn : List PsEntry → String → Option PsEntry
  | [], _ => none
  | ctr :: rest, cfgName =>
    if ctr.names.any (fun n => trimSlash n == cfgName) then some ctr
    else findMatchIn rest cfgName

/-- findAndReuseContainer lists all containers and, on a name match,
captures the identifier and the running flag (status text containing Up);
otherwise it reports a not-found error and leaves the handle unchanged. -/
def findAndReuseContainer (c : Container) (e : Engine) :
    Except String Unit × Container × List EngineCall :=
  match e.listAll with
  | .error m => (.error ("failed to list containers: " ++ m), c, [.listContainers])
  | .ok containers =>
    match findMatchIn containers c.config.name with
    | some ctr =>
      (.ok (), { c with containerID := ctr.id, isRunning := statusHasUp ctr.status },
        [.listContainers])
    | none =>
      (.error ("container with name " ++ c.config.name ++ " not found"), c, [.listContainers])

/-- ensureContainerRunning starts the container only when the captured
running flag is false; a successful start sets the flag. -/
def ensureContainerRunning (c : Container) (e : Engine) :
    Except String Unit × Container × List EngineCall :=
  if c.isRunning = true then (.ok (), c, [])
  else
    match e.startContainer c.containerID with
    | .error m =>
      (.error ("failed to start existing container: " ++ m), c, [.startCall c.containerID])
    | .ok _ => (.ok (), { c with isRunning := true }, [.startCall c.containerID])

/-- createAfterPull is the tail of createAndStartContainer after the image
presence and pull step: create (capturing the new identifier), start, run
the stability window, and only then set the running flag. -/
def createAfterPull (c : Container) (e : Engine) (t0 : List EngineCall) :
    Except String Unit × Container × List EngineCall :=
  match e.createContainer with
  | .error m => (.error ("failed to create container: " ++ m), c, t0 ++ [.createCall])
  | .ok newId =>
    match e.startContainer newId with
    | .error m =>
      (.error ("failed to start container: " ++ m), { c with containerID := newId },
        t0 ++ [.createCall, .startCall newId])
    | .ok _ =>
      let out := waitForStableState e.inspectAt e.cancelledAt
      let t1 := t0 ++ [.createCall, .startCall newId] ++
        List.replicate out.inspections (.inspectCall newId)
      match out.result with
      | .ok => (.ok (), { c with containerID := newId, isRunning := true }, t1)
      | r =>
        (.error ("container failed to maintain stable state: " ++ stableErrMsg r),
          { c with containerID := newId }, t1)

/-- createAndStartContainer checks image presence, pulls when absent (a
pull failure is fatal), then creates and starts the container and runs the
stability window. -/
def createAndStartContainer (c : Container) (e : Engine) :
    Except String Unit × Container × List EngineCall :=
  if e.imagePresent = true then createAfterPull c e [.imageInspect c.config.image]
  else
    match e.pullImage with
    | .error m =>
      (.error ("failed to pull image: " ++ m), c,
        [.imageInspect c.config.image, .imagePull c.config.image])
    | .ok _ => createAfterPull c e [.imageInspect c.config.image, .imagePull c.config.image]

/-- Start starts or reuses an existing container: with reuse enabled it
first tries to locate a container by name; a lookup failure is a logged
soft failure falling through to creation; a located non-empty identifier is
handed to ensureContainerRunning, everything else goes through
createAndStartContainer. -/
def Start (c : Container) (e : Engine) : Except String Unit × Container × List EngineCall :=
  if c.config.reuse = true then
    match findAndReuseContainer c e with
    | (.error _, c1, t1) =>
      let r := createAndStartContainer c1 e
      (r.1, r.2.1, t1 ++ r.2.2)
    | (.ok _, c1, t1) =>
      if c1.containerID ≠ "" then
        let r := ensureContainerRunning c1 e
        (r.1, r.2.1, t1 ++ r.2.2)
      else
        let r := createAndStartContainer c1 e
        (r.1, r.2.1, t1 ++ r.2.2)
  else createAndStartContainer c e

/-- Stop is a no-op without an identifier; otherwise it issues a stop call
with the fixed 30 second grace period and clears the running flag on
success, retaining the identifier. -/
def Stop (c : Container) (e : Engine) : Except String Unit × Container × List EngineCall :=
  if c.containerID = "" then (.ok (), c, [])
  else
    match e.stopContainer c.containerID with
    | .error m =>
      (.error ("failed to stop container: " ++ m), c, [.stopCall c.containerID 30])
    | .ok _ => (.ok (), { c with isRunning := false }, [.stopCall c.containerID 30])

/-- Cleanup is a no-op without an identifier; with reuse it degrades to
Stop; otherwise it runs a best-effort Stop (failure only logged), then a
forced remove, clearing the identifier on success. -/
def Cleanup (c : Container) (e : Engine) : Except String Unit × Container × List EngineCall :=
  if c.containerID = "" then (.ok (), c, [])
  else if c.config.reuse = true then Stop c e
  else
    let r := Stop c e
    match e.removeContainer r.2.1.containerID with
    | .error m =>
      (.error ("failed to remove container: " ++ m), r.2.1,
        r.2.2 ++ [.removeCall r.2.1.containerID true])
    | .ok _ =>
      (.ok (), { r.2.1 with containerID := "" }, r.2.2 ++ [.removeCall r.2.1.containerID true])

/-- IsRunning returns (false, nil) without an identifier; otherwise it
inspects the engine state and returns (and caches) the freshly reported
running flag. -/
def IsRunning (c : Container) (e : Engine) :
    Except String Bool × Container × List EngineCall :=
  if c.containerID = "" then (.ok false, c, [])
  else
    match e.inspectState c.containerID with
    | .error m => (.error ("failed to inspect container: " ++ m), c, [.inspectCall c.containerID])
    | .ok st => (.ok st.running, { c with isRunning := st.running }, [.inspectCall c.containerID])

/-- lookupPorts looks a key up in the engine reported port map. -/
def lookupPorts : List (String × List String) → String → Option (List String)
  | [], _ => none
  | (k, v) :: rest, key => if k == key then some v else lookupPorts rest key

/-- GetPort requires an identifier, inspects the engine port map and
returns the first host port bound to containerPort/tcp, or a descriptive
error when no binding exists. -/
def GetPort (c : Container) (e : Engine) (port : String) :
    Except String String × List EngineCall :=
  if c.containerID = "" then (.error "container not started", [])
  else
    match e.inspectPorts c.containerID with
    | .error m => (.error ("failed to inspect container: " ++ m), [.inspectCall c.containerID])
    | .ok pm =>
      match lookupPorts pm (port ++ "/tcp") with
      | some (h :: _) => (.ok h, [.inspectCall c.containerID])
      | some [] => (.error ("no port mapping found for port " ++ port), [.inspectCall c.containerID])
      | none => (.error ("no port mapping found for port " ++ port), [.inspectCall c.containerID])

/-- Logs fetches the log stream handle; it fails without an identifier or
when the engine log call fails. -/
def Logs (c : Container) (e : Engine) : Except String Unit :=
  if c.containerID = "" then .error "container not started"
  else
    match e.containerLogs c.containerID with
    | .error m => .error ("failed to get container logs: " ++ m)
    | .ok _ => .ok ()

/-- logChunkLines is the output of the bounded 8KB log read: the read bytes
framed by markers when non-empty, a no-logs line otherwise. -/
def logChunkLines (data : String) : List String :=
  let chunk := String.mk (data.data.take 8192)
  if chunk.data.length > 0 then
    ["=== Container Logs (last " ++ toString chunk.data.length ++ " bytes) ===",
      chunk, "=== End Container Logs ==="]
  else ["No container logs available"]

/-- PrintLogsOnFailure is the diagnostics routine: it emits the failure
reason, then tries a state inspection, a log fetch and a bounded log read,
logging and swallowing every sub-call failure.  The return value is the
list of emitted log lines; the routine has no error channel, exactly as the
void Go function. -/
def PrintLogsOnFailure (c : Container) (e : Engine) (reason : String) : List String :=
  let l0 := ["Container startup failed: " ++ reason]
  if c.containerID = "" then l0 ++ ["No container ID available for log retrieval"]
  else
    let l1 := l0 ++
      (match e.inspectState c.containerID with
        | .ok st =>
          ["Container Status - State: " ++ st.status ++ ", ExitCode: " ++
              toString st.exitCode ++ ", Error: " ++ st.errMsg,
            "Container Started At: " ++ st.startedAt ++ ", Finished At: " ++ st.finishedAt]
        | .error m => ["Failed to inspect container for status: " ++ m])
    let l2 := l1 ++ ["Retrieving container logs for debugging..."]
    match Logs c e with
    | .error m => l2 ++ ["Failed to retrieve container logs: " ++ m]
    | .ok _ =>
      match e.readLogs with
      | .fail m => l2 ++ ["Failed to read container logs: " ++ m]
      | .bytes data => l2 ++ logChunkLines data
      | .eofRead data => l2 ++ logChunkLines data

/-- startFailureReturn models the caller pattern on a failed start path:
run the diagnostics routine, then return the original error unchanged. -/
def startFailureReturn (c : Container) (e : Engine) (reason origErr : String) :
    Except String Unit × List String :=
  (.error origErr, PrintLogsOnFailure c e reason)

/-- runningState is a concrete engine state report with running true. -/
def runningState : CState := ⟨true, "running", 0, "", "", ""⟩

/-- exitedState is a concrete engine state report with running false. -/
def exitedState : CState := ⟨false, "exited", 1, "", "", ""⟩

/-- stExited is the constant state oracle reporting an exited container. -/
def stExited : Nat → CState := fun _ => exitedState

/-- okEngine is a concrete engine on which every call succeeds. -/
def okEngine : Engine :=
  { listAll := .ok []
    imagePresent := true
    pullImage := .ok ()
    createContainer := .ok "newid"
    startContainer := fun _ => .ok ()
    stopContainer := fun _ => .ok ()
    removeContainer := fun _ => .ok ()
    inspectState := fun _ => .ok runningState
    inspectAt := fun _ => .ok runningState
    inspectPorts := fun _ => .ok []
    containerLogs := fun _ => .ok ()
    readLogs := .bytes ""
    cancelledAt := fun _ => false }

/-- baseConfig is a concrete configuration without reuse. -/
def baseConfig : Config :=
  { image := "img", name := "foo", ports := [], env := [], mounts := [], reuse := false }

/-- reuseConfig is baseConfig with reuse requested. -/
def reuseConfig : Config := { baseConfig with reuse := true }

/-- c2Handle is a fresh handle with reuse requested. -/
def c2Handle : Container := { config := reuseConfig, containerID := "", isRunning := false }

/-- c2Entry is the engine listing entry matching c2Handle by name. -/
def c2Entry : PsEntry := { id := "abc123", names := ["/foo"], status := "Up 2 hours" }

/-- c2Engine lists exactly one running container named foo (with the
leading slash the engine adds). -/
def c2Engine : Engine := { okEngine with listAll := .ok [c2Entry] }

/-- c5Handle is a running reuse-enabled handle with an identifier set. -/
def c5Handle : Container := { config := reuseConfig, containerID := "sq1", isRunning := true }

/-- stopFailEngine is an engine whose stop call fails. -/
def stopFailEngine : Engine := { okEngine with stopContainer := fun _ => .error "boom" }

/-- cWitnessHandle is a reuse-disabled handle with an identifier set. -/
def cWitnessHandle : Container := { config := baseConfig, containerID := "abc", isRunning := false }

/-- inspectFailEngine is an engine whose one-shot inspection and log fetch
both fail. -/
def inspectFailEngine : Engine :=
  { okEngine with
    inspectState := fun _ => .error "ie"
    containerLogs := fun _ => .error "le" }

/-- stableLoopAux succeeds and counts fuel inspections and fuel sleeps when
every check in the window reports running. -/
theorem stableLoopAux_ok (st : Nat → CState) :
    ∀ fuel i ins sl, (∀ j, j < fuel → (st (i + j)).running = true) →
      stableLoopAux (fun k => .ok (st k)) (fun _ => false) fuel i ins sl =
        ⟨.ok, ins + fuel, sl + fuel⟩ := by
  intro fuel
  induction fuel with
  | zero => intro i ins sl _; simp [stableLoopAux]
  | succ n ih =>
    intro i ins sl h
    have h0 : (st i).running = true := by simpa using h 0 (Nat.succ_pos n)
    have h1 : ∀ j, j < n → (st (i + 1 + j)).running = true := by
      intro j hj
      have := h (j + 1) (by omega)
      simpa [show i + (j + 1) = i + 1 + j by omega] using this
    rw [(by omega : ins + (n + 1) = ins + 1 + n), (by omega : sl + (n + 1) = sl + 1 + n)]
    simp [stableLoopAux, h0]
    rw [ih (i + 1) (ins + 1) (sl + 1) h1]

/-- stableLoopAux aborts at the first not-running report, after exactly
k + 1 inspections and k sleeps when the first k checks report running. -/
theorem stableLoopAux_exit (st : Nat → CState) :
    ∀ k fuel i ins sl, k < fuel →
      (∀ j, j < k → (st (i + j)).running = true) → (st (i + k)).running = false →
      stableLoopAux (fun n => .ok (st n)) (fun _ => false) fuel i ins sl =
        ⟨.exited (st (i + k)).status (st (i + k)).exitCode, ins + k + 1, sl + k⟩ := by
  intro k
  induction k with
  | zero =>
    intro fuel i ins sl hk hall hfail
    cases fuel with
    | zero => omega
    | succ f =>
      simp only [Nat.add_zero] at hfail
      simp [stableLoopAux, hfail]
  | succ kk ih =>
    intro fuel i ins sl hk hall hfail
    cases fuel with
    | zero => omega
    | succ f =>
      have h0 : (st i).running = true := by simpa using hall 0 (Nat.succ_pos kk)
      have hall1 : ∀ j, j < kk → (st (i + 1 + j)).running = true := by
        intro j hj
        have := hall (j + 1) (by omega)
        simpa [show i + (j + 1) = i + 1 + j by omega] using this
      have hfail1 : (st (i + 1 + kk)).running = false := by
        simpa [show i + (kk + 1) = i + 1 + kk by omega] using hfail
      rw [(by omega : i + (kk + 1) = i + 1 + kk),
        (by omega : ins + (kk + 1) + 1 = ins + 1 + kk + 1),
        (by omega : sl + (kk + 1) = sl + 1 + kk)]
      simp [stableLoopAux, h0]
      rw [ih f (i + 1) (ins + 1) (sl + 1) (by omega) hall1 hfail1]

/-- stableLoopAux propagates cancellation before the next inspection: when
the signal first fires at check k (reached after k running reports), the
loop returns the cancellation outcome with exactly k inspections. -/
theorem stableLoopAux_cancel (st : Nat → CState) (cancelled : Nat → Bool) :
    ∀ k fuel i ins sl, k < fuel → cancelled (i + k) = true →
      (∀ j, j < k → cancelled (i + j) = false) →
      (∀ j, j < k → (st (i + j)).running = true) →
      stableLoopAux (fun n => .ok (st n)) cancelled fuel i ins sl =
        ⟨.cancelledRes, ins + k, sl + k⟩ := by
  intro k
  induction k with
  | zero =>
    intro fuel i ins sl hk hcan _ _
    cases fuel with
    | zero => omega
    | succ f =>
      simp only [Nat.add_zero] at hcan
      simp [stableLoopAux, hcan]
  | succ kk ih =>
    intro fuel i ins sl hk hcan hprev hrun
    cases fuel with
    | zero => omega
    | succ f =>
      have hc0 : cancelled i = false := by simpa using hprev 0 (Nat.succ_pos kk)
      have h0 : (st i).running = true := by simpa using hrun 0 (Nat.succ_pos kk)
      have hcan1 : cancelled (i + 1 + kk) = true := by
        simpa [show i + (kk + 1) = i + 1 + kk by omega] using hcan
      have hprev1 : ∀ j, j < kk → cancelled (i + 1 + j) = false := by
        intro j hj
        have := hprev (j + 1) (by omega)
        simpa [show i + (j + 1) = i + 1 + j by omega] using this
      have hrun1 : ∀ j, j < kk → (st (i + 1 + j)).running = true := by
        intro j hj
        have := hrun (j + 1) (by omega)
        simpa [show i + (j + 1) = i + 1 + j by omega] using this
      rw [(by omega : ins + (kk + 1) = ins + 1 + kk),
        (by omega : sl + (kk + 1) = sl + 1 + kk)]
      simp [stableLoopAux, hc0, h0]
      rw [ih f (i + 1) (ins + 1) (sl + 1) (by omega) hcan1 hprev1 hrun1]

/-- readyLoopAux with an always-false predicate and no cancellation runs
the whole remaining budget: one predicate attempt per remaining iteration
and a sleep after every failed attempt except the last. -/
theorem readyLoopAux_exhaust (name : String) (wd : Bool) (N : Nat)
    (pred cancelled : Nat → Bool)
    (hp : ∀ j, pred j = false) (hc : ∀ j, cancelled j = false) :
    ∀ fuel i a s d, i + fuel = N →
      (readyLoopAux name wd N pred cancelled fuel i a s d).result =
        .exhausted (name ++ " failed to become ready after " ++ toString N ++ " attempts") ∧
      (readyLoopAux name wd N pred cancelled fuel i a s d).attempts = a + fuel ∧
      (readyLoopAux name wd N pred cancelled fuel i a s d).sleeps = s + (fuel - 1) := by
  intro fuel
  induction fuel with
  | zero => intro i a s d hN; simp [readyLoopAux]
  | succ f ih =>
    intro i a s d hN
    have hrec := ih (i + 1) (a + 1)
      (if i < N - 1 then s + 1 else s)
      (if wd = true ∧ 0 < i ∧ (i + 1) % 10 = 0 then d + 1 else d) (by omega)
    simp only [readyLoopAux, hc i, hp i]
    simp only [Bool.false_eq_true, if_false]
    refine ⟨hrec.1, ?_, ?_⟩
    · rw [hrec.2.1]; omega
    · rw [hrec.2.2]
      by_cases hi : i < N - 1 <;> simp [hi] <;> omega

/-- readyLoopAux propagates cancellation before the next predicate attempt:
when the signal first fires at attempt index k (reached after k failed
attempts), the loop returns the cancellation outcome after exactly k
predicate attempts. -/
theorem readyLoopAux_cancel (name : String) (wd : Bool) (N : Nat)
    (pred cancelled : Nat → Bool) :
    ∀ k fuel i a s d, k < fuel → cancelled (i + k) = true →
      (∀ j, j < k → cancelled (i + j) = false) →
      (∀ j, j < k → pred (i + j) = false) →
      (readyLoopAux name wd N pred cancelled fuel i a s d).result = .cancelledRes ∧
      (readyLoopAux name wd N pred cancelled fuel i a s d).attempts = a + k := by
  intro k
  induction k with
  | zero =>
    intro fuel i a s d hk hcan _ _
    cases fuel with
    | zero => omega
    | succ f =>
      simp only [Nat.add_zero] at hcan
      simp [readyLoopAux, hcan]
  | succ kk ih =>
    intro fuel i a s d hk hcan hprev hpred
    cases fuel with
    | zero => omega
    | succ f =>
      have hc0 : cancelled i = false := by simpa using hprev 0 (Nat.succ_pos kk)
      have hp0 : pred i = false := by simpa using hpred 0 (Nat.succ_pos kk)
      have hcan1 : cancelled (i + 1 + kk) = true := by
        simpa [show i + (kk + 1) = i + 1 + kk by omega] using hcan
      have hprev1 : ∀ j, j < kk → cancelled (i + 1 + j) = false := by
        intro j hj
        have := hprev (j + 1) (by omega)
        simpa [show i + (j + 1) = i + 1 + j by omega] using this
      have hpred1 : ∀ j, j < kk → pred (i + 1 + j) = false := by
        intro j hj
        have := hpred (j + 1) (by omega)
        simpa [show i + (j + 1) = i + 1 + j by omega] using this
      have hrec := ih f (i + 1) (a + 1)
        (if i < N - 1 then s + 1 else s)
        (if wd = true ∧ 0 < i ∧ (i + 1) % 10 = 0 then d + 1 else d)
        (by omega) hcan1 hprev1 hpred1
      simp only [readyLoopAux, hc0, hp0]
      simp only [Bool.false_eq_true, if_false]
      refine ⟨hrec.1, ?_⟩
      rw [hrec.2]; omega

/-- C1: the stability check polls the state every 500ms over a 3 second
window, hence exactly 6 checks; with no cancellation and a reachable
engine it succeeds if and only if every check reports running (making
exactly 6 inspections), and a not-running report at check k aborts at once
after k + 1 inspections and only k sleeps (the window neither restarts nor
runs out); in particular a not-running report on the very first check
fails immediately after a single inspection. -/
theorem stability_window_spec (st : Nat → CState) :
    maxChecks = 6 ∧
    ((waitForStableState (fun i => .ok (st i)) (fun _ => false)).result = .ok ↔
      ∀ j, j < 6 → (st j).running = true) ∧
    ((∀ j, j < 6 → (st j).running = true) →
      waitForStableState (fun i => .ok (st i)) (fun _ => false) = ⟨.ok, 6, 6⟩) ∧
    (∀ k, k < 6 → (∀ j, j < k → (st j).running = true) → (st k).running = false →
      waitForStableState (fun i => .ok (st i)) (fun _ => false) =
        ⟨.exited (st k).status (st k).exitCode, k + 1, k⟩) ∧
    ((st 0).running = false →
      waitForStableState (fun i => .ok (st i)) (fun _ => false) =
        ⟨.exited (st 0).status (st 0).exitCode, 1, 0⟩) := by
  have hmc : maxChecks = 6 := rfl
  have hsucc : (∀ j, j < 6 → (st j).running = true) →
      waitForStableState (fun i => .ok (st i)) (fun _ => false) = ⟨.ok, 6, 6⟩ := by
    intro h
    have := stableLoopAux_ok st 6 0 0 0 (by intro j hj; simpa using h j hj)
    simpa [waitForStableState, hmc] using this
  have hexit : ∀ k, k < 6 → (∀ j, j < k → (st j).running = true) →
      (st k).running = false →
      waitForStableState (fun i => .ok (st i)) (fun _ => false) =
        ⟨.exited (st k).status (st k).exitCode, k + 1, k⟩ := by
    intro k hk hall hf
    have := stableLoopAux_exit st k 6 0 0 0 hk
      (by intro j hj; simpa using hall j hj) (by simpa using hf)
    simpa [waitForStableState, hmc] using this
  refine ⟨hmc, ⟨?_, ?_⟩, hsucc, hexit, fun h0 => hexit 0 (by omega) (by omega) h0⟩
  · intro hok
    by_contra hnot
    push_neg at hnot
    obtain ⟨j, hj6, hjr⟩ := hnot
    have hex : ∃ m, m < 6 ∧ (st m).running = false := ⟨j, hj6, by simpa using hjr⟩
    have hfind := Nat.find_spec hex
    have hall : ∀ m, m < Nat.find hex → (st m).running = true := by
      intro m hm
      by_contra hcon
      exact Nat.find_min hex hm ⟨by omega, by simpa using hcon⟩
    have heq := hexit (Nat.find hex) hfind.1 hall hfind.2
    rw [heq] at hok
    simp at hok
  · intro h
    rw [hsucc h]

/-- Witness for C1: on the constant exited oracle the very first check
aborts the window after one inspection and no sleeps. -/
theorem stability_window_spec_witness :
    waitForStableState (fun i => .ok (stExited i)) (fun _ => false) =
      ⟨.exited "exited" 1, 1, 0⟩ := by
  have H := (stability_window_spec stExited).2.2.2.2 rfl
  simpa [stExited, exitedState] using H

/-- C3: a readiness probe with attempt budget N and an always-false
predicate invokes the predicate exactly N times, sleeps the fixed delay
between consecutive failed attempts but not after the last, and returns
the descriptive exhaustion error whose message names N. -/
theorem readiness_exhaustion_spec (name : String) (wd : Bool) (N : Nat)
    (pred cancelled : Nat → Bool)
    (hp : ∀ j, pred j = false) (hc : ∀ j, cancelled j = false) :
    (waitForReadyGen name wd N pred cancelled).result =
      .exhausted (name ++ " failed to become ready after " ++ toString N ++ " attempts") ∧
    (waitForReadyGen name wd N pred cancelled).attempts = N ∧
    (waitForReadyGen name wd N pred cancelled).sleeps = N - 1 := by
  have H := readyLoopAux_exhaust name wd N pred cancelled hp hc N 0 0 0 0 (by omega)
  simpa [waitForReadyGen] using H

/-- Witness for C3 at the SQL Server probe instance: budget 30, always
false predicate, 30 attempts, 29 sleeps, exhaustion error naming 30. -/
theorem readiness_exhaustion_spec_witness :
    (sqlserverWaitForReady (fun _ => false) (fun _ => false)).result =
      .exhausted ("SQL Server" ++ " failed to become ready after " ++ toString 30 ++ " attempts") ∧
    (sqlserverWaitForReady (fun _ => false) (fun _ => false)).attempts = 30 ∧
    (sqlserverWaitForReady (fun _ => false) (fun _ => false)).sleeps = 30 - 1 := by
  exact readiness_exhaustion_spec "SQL Server" false 30 (fun _ => false) (fun _ => false)
    (fun _ => rfl) (fun _ => rfl)

/-- C4: both polling loops check the cancellation signal before each
attempt: if the signal first fires at attempt index i (the loop having
been reached through i non-cancelled attempts), the stability loop
returns the cancellation outcome after exactly i inspections, without
invoking inspection i, and the readiness loop returns it after exactly i
predicate attempts, without invoking the predicate again. -/
theorem cancellation_spec :
    (∀ (st : Nat → CState) (cancelled : Nat → Bool) (i : Nat),
      i < maxChecks → cancelled i = true →
      (∀ j, j < i → cancelled j = false) →
      (∀ j, j < i → (st j).running = true) →
      waitForStableState (fun k => .ok (st k)) cancelled = ⟨.cancelledRes, i, i⟩) ∧
    (∀ (name : String) (wd : Bool) (N : Nat) (pred cancelled : Nat → Bool) (i : Nat),
      i < N → cancelled i = true →
      (∀ j, j < i → cancelled j = false) →
      (∀ j, j < i → pred j = false) →
      (waitForReadyGen name wd N pred cancelled).result = .cancelledRes ∧
      (waitForReadyGen name wd N pred cancelled).attempts = i) := by
  constructor
  · intro st cancelled i hi hcan hprev hrun
    have := stableLoopAux_cancel st cancelled i maxChecks 0 0 0 hi
      (by simpa using hcan) (by intro j hj; simpa using hprev j hj)
      (by intro j hj; simpa using hrun j hj)
    simpa [waitForStableState] using this
  · intro name wd N pred cancelled i hi hcan hprev hpred
    have := readyLoopAux_cancel name wd N pred cancelled i N 0 0 0 0 hi
      (by simpa using hcan) (by intro j hj; simpa using hprev j hj)
      (by intro j hj; simpa using hpred j hj)
    simpa [waitForReadyGen] using this

/-- Witness for C4: cancellation first firing at attempt index 2 stops the
stability loop after 2 inspections and the ActiveMQ readiness loop after 2
predicate attempts. -/
theorem cancellation_spec_witness :
    waitForStableState (fun _ => .ok runningState) (fun k => decide (k = 2)) =
      ⟨.cancelledRes, 2, 2⟩ ∧
    (waitForReadyGen "ActiveMQ" true 60 (fun _ => false) (fun k => decide (k = 2))).attempts = 2 := by
  constructor
  · exact cancellation_spec.1 (fun _ => runningState) (fun k => decide (k = 2)) 2
      (by decide) (by decide)
      (by intro j hj; simp; omega)
      (by intro j hj; rfl)
  · exact (cancellation_spec.2 "ActiveMQ" true 60 (fun _ => false) (fun k => decide (k = 2)) 2
      (by omega) (by decide)
      (by intro j hj; simp; omega)
      (by intro j hj; rfl)).2

/-- Start on the reuse path reduces to ensureContainerRunning on the
captured identifier and running flag, preceded by the single listing
call. -/
theorem Start_reuse_found (c : Container) (e : Engine) (l : List PsEntry) (ctr : PsEntry)
    (hr : c.config.reuse = true) (hl : e.listAll = .ok l)
    (hf : findMatchIn l c.config.name = some ctr) (hid : ctr.id ≠ "") :
    Start c e =
      ((ensureContainerRunning
          { c with containerID := ctr.id, isRunning := statusHasUp ctr.status } e).1,
        (ensureContainerRunning
          { c with containerID := ctr.id, isRunning := statusHasUp ctr.status } e).2.1,
        .listContainers ::
          (ensureContainerRunning
            { c with containerID := ctr.id, isRunning := statusHasUp ctr.status } e).2.2) := by
  simp [Start, hr, findAndReuseContainer, hl, hf, hid]

/-- C2 counterexample: a reuse-enabled Start that finds a running container
of the matching name issues only the listing call: it captures the
identifier and succeeds, but performs neither the start call (step 3) nor
any stability-check inspection (step 4), contradicting the claim that both
steps run on the reuse path. -/
theorem reuse_start_counterexample :
    c2Handle.config.reuse = true ∧
    (Start c2Handle c2Engine).1 = .ok () ∧
    (Start c2Handle c2Engine).2.1.containerID = "abc123" ∧
    (Start c2Handle c2Engine).2.2 = [.listContainers] ∧
    ((Start c2Handle c2Engine).2.2.all fun call =>
      !isStartCall call && !isCreateCall call && !isInspectCall call) = true := by
  decide

/-- C2 amended: on a reuse-enabled Start whose name lookup matches an
existing container with a non-empty identifier, the controller captures
that identifier and running flag and never issues a create call or a
stability-check inspection; it issues the start call only when the
captured flag is not running (when the container is reported running, the
listing is the only engine call and Start succeeds at once). -/
theorem reuse_start_amended (c : Container) (e : Engine) (l : List PsEntry) (ctr : PsEntry)
    (hr : c.config.reuse = true) (hl : e.listAll = .ok l)
    (hf : findMatchIn l c.config.name = some ctr) (hid : ctr.id ≠ "") :
    (Start c e).2.1.containerID = ctr.id ∧
    (∀ call ∈ (Start c e).2.2, isCreateCall call = false ∧ isInspectCall call = false) ∧
    (statusHasUp ctr.status = true →
      Start c e = (.ok (), { c with containerID := ctr.id, isRunning := true },
        [.listContainers])) ∧
    (statusHasUp ctr.status = false →
      (Start c e).2.2 = [.listContainers, .startCall ctr.id]) := by
  have hS := Start_reuse_found c e l ctr hr hl hf hid
  by_cases hup : statusHasUp ctr.status = true
  · refine ⟨?_, ?_, ?_, ?_⟩
    · simp [hS, ensureContainerRunning, hup]
    · intro call hcall
      simp [hS, ensureContainerRunning, hup] at hcall
      simp [hcall, isCreateCall, isInspectCall]
    · intro _
      simp [hS, ensureContainerRunning, hup]
    · intro hdown
      rw [hup] at hdown
      exact absurd hdown (by simp)
  · have hdown : statusHasUp ctr.status = false := by simpa using hup
    cases hstart : e.startContainer ctr.id with
    | error m =>
      refine ⟨?_, ?_, ?_, ?_⟩
      · simp [hS, ensureContainerRunning, hdown, hstart]
      · intro call hcall
        simp [hS, ensureContainerRunning, hdown, hstart] at hcall
        rcases hcall with h | h <;> simp [h, isCreateCall, isInspectCall]
      · intro hcon; rw [hcon] at hdown; exact absurd hdown (by simp)
      · intro _; simp [hS, ensureContainerRunning, hdown, hstart]
    | ok u =>
      refine ⟨?_, ?_, ?_, ?_⟩
      · simp [hS, ensureContainerRunning, hdown, hstart]
      · intro call hcall
        simp [hS, ensureContainerRunning, hdown, hstart] at hcall
        rcases hcall with h | h <;> simp [h, isCreateCall, isInspectCall]
      · intro hcon; rw [hcon] at hdown; exact absurd hdown (by simp)
      · intro _; simp [hS, ensureContainerRunning, hdown, hstart]

/-- Witness for the amended C2: the concrete reuse-enabled handle with the
listed running container named foo gets the identifier captured, the flag
set, and only the listing call issued. -/
theorem reuse_start_amended_witness :
    Start c2Handle c2Engine =
      (.ok (), { c2Handle with containerID := "abc123", isRunning := true },
        [.listContainers]) := by
  have H := reuse_start_amended c2Handle c2Engine [c2Entry] c2Entry
    (by decide) rfl (by decide) (by decide)
  exact H.2.2.1 (by decide)

/-- C5 counterexample: on a reuse-enabled handle whose engine stop call
fails, Cleanup returns the wrapped stop error and leaves isRunning true,
contradicting the unconditional claim that Cleanup on a reuse-enabled
handle leaves isRunning false. -/
theorem cleanup_reuse_counterexample :
    c5Handle.containerID = "sq1" ∧
    c5Handle.config.reuse = true ∧
    (Cleanup c5Handle stopFailEngine).2.1.isRunning = true ∧
    (Cleanup c5Handle stopFailEngine).2.1.containerID = "sq1" := by
  decide

/-- C5 amended: for a handle with a non-empty identifier, Cleanup on a
reuse-enabled handle degrades to Stop, always retains the identifier, and
leaves isRunning false whenever the engine stop call succeeds (on a stop
failure the wrapped error is returned and isRunning keeps its prior
value); Cleanup on a reuse-disabled handle always attempts the forced
remove, even when the best-effort Stop fails, and on remove success
returns nil with the identifier cleared to empty. -/
theorem cleanup_amended (c : Container) (e : Engine) (hid : c.containerID ≠ "") :
    (c.config.reuse = true →
      Cleanup c e = Stop c e ∧
      (Cleanup c e).2.1.containerID = c.containerID ∧
      (e.stopContainer c.containerID = .ok () →
        (Cleanup c e).1 = .ok () ∧ (Cleanup c e).2.1.isRunning = false)) ∧
    (c.config.reuse = false →
      ((Cleanup c e).2.2.any isRemoveCall = true) ∧
      (∀ m, e.stopContainer c.containerID = .error m →
        (Cleanup c e).2.2 = [.stopCall c.containerID 30, .removeCall c.containerID true]) ∧
      (e.removeContainer c.containerID = .ok () →
        (Cleanup c e).1 = .ok () ∧ (Cleanup c e).2.1.containerID = "")) := by
  constructor
  · intro hr
    have hCS : Cleanup c e = Stop c e := by simp [Cleanup, hid, hr]
    refine ⟨hCS, ?_, ?_⟩
    · rw [hCS]
      cases hstop : e.stopContainer c.containerID with
      | error m => simp [Stop, hid, hstop]
      | ok u => simp [Stop, hid, hstop]
    · intro hstop
      rw [hCS]
      simp [Stop, hid, hstop]
  · intro hr
    have hrf : ¬(c.config.reuse = true) := by simp [hr]
    cases hstop : e.stopContainer c.containerID with
    | error m =>
      cases hrem : e.removeContainer c.containerID with
      | error m2 =>
        refine ⟨?_, ?_, ?_⟩
        · simp [Cleanup, hid, hrf, Stop, hstop, hrem, isRemoveCall]
        · intro m3 _; simp [Cleanup, hid, hrf, Stop, hstop, hrem]
        · intro hcon; exact Except.noConfusion hcon
      | ok u =>
        refine ⟨?_, ?_, ?_⟩
        · simp [Cleanup, hid, hrf, Stop, hstop, hrem, isRemoveCall]
        · intro m3 _; simp [Cleanup, hid, hrf, Stop, hstop, hrem]
        · intro _; simp [Cleanup, hid, hrf, Stop, hstop, hrem]
    | ok u =>
      cases hrem : e.removeContainer c.containerID with
      | error m2 =>
        refine ⟨?_, ?_, ?_⟩
        · simp [Cleanup, hid, hrf, Stop, hstop, hrem, isRemoveCall]
        · intro m3 hcon; exact Except.noConfusion hcon
        · intro hcon; exact Except.noConfusion hcon
      | ok u2 =>
        refine ⟨?_, ?_, ?_⟩
        · simp [Cleanup, hid, hrf, Stop, hstop, hrem, isRemoveCall]
        · intro m3 hcon; exact Except.noConfusion hcon
        · intro _; simp [Cleanup, hid, hrf, Stop, hstop, hrem]

/-- Witness for the amended C5: on the reuse-disabled handle with a fully
successful engine, Cleanup returns nil and clears the identifier. -/
theorem cleanup_amended_witness :
    (Cleanup cWitnessHandle okEngine).1 = .ok () ∧
    (Cleanup cWitnessHandle okEngine).2.1.containerID = "" := by
  have H := cleanup_amended cWitnessHandle okEngine (by decide)
  exact (H.2 rfl).2.2 rfl

/-- C6: Stop returns nil with no engine call when the identifier is empty;
with an identifier set it issues exactly one stop call with the fixed 30
second grace period and, on success, returns nil with the running flag
cleared and the identifier retained; and after a successful stop a second
Stop also returns nil. -/
theorem stop_spec (c : Container) (e : Engine) :
    (c.containerID = "" → Stop c e = (.ok (), c, [])) ∧
    (c.containerID ≠ "" →
      (Stop c e).2.2 = [.stopCall c.containerID 30] ∧
      (e.stopContainer c.containerID = .ok () →
        Stop c e = (.ok (), { c with isRunning := false }, [.stopCall c.containerID 30]))) ∧
    (e.stopContainer c.containerID = .ok () →
      (Stop c e).1 = .ok () ∧ (Stop (Stop c e).2.1 e).1 = .ok ()) := by
  refine ⟨?_, ?_, ?_⟩
  · intro h; simp [Stop, h]
  · intro h
    constructor
    · cases hstop : e.stopContainer c.containerID with
      | error m => simp [Stop, h, hstop]
      | ok u => simp [Stop, h, hstop]
    · intro hstop; simp [Stop, h, hstop]
  · intro hstop
    by_cases h : c.containerID = ""
    · simp [Stop, h]
    · simp [Stop, h, hstop]

/-- Witness for C6: on the concrete handle with identifier abc and the
all-success engine, Stop succeeds and a second Stop succeeds again. -/
theorem stop_spec_witness :
    (Stop cWitnessHandle okEngine).1 = .ok () ∧
    (Stop (Stop cWitnessHandle okEngine).2.1 okEngine).1 = .ok () := by
  exact (stop_spec cWitnessHandle okEngine).2.2 rfl

/-- C10: when the identifier is set and the engine stop call fails, Stop
returns the wrapped error and leaves the handle completely unchanged: the
identifier stays set and isRunning keeps its prior value. -/
theorem stop_error_frame_spec (c : Container) (e : Engine) (m : String)
    (hid : c.containerID ≠ "") (hstop : e.stopContainer c.containerID = .error m) :
    Stop c e =
      (.error ("failed to stop container: " ++ m), c, [.stopCall c.containerID 30]) := by
  simp [Stop, hid, hstop]

/-- Witness for C10: on the failing-stop engine the error is wrapped and
the handle returned unchanged. -/
theorem stop_error_frame_spec_witness :
    Stop cWitnessHandle stopFailEngine =
      (.error ("failed to stop container: " ++ "boom"), cWitnessHandle,
        [.stopCall "abc" 30]) := by
  exact stop_error_frame_spec cWitnessHandle stopFailEngine "boom" (by decide) rfl

/-- C7: GetPort fails with the descriptive not-started error whenever no
identifier is assigned; with an identifier, whenever the engine port map
has no non-empty binding for containerPort/tcp it fails with the
descriptive no-mapping error naming the port; and it returns a host port
only when a binding exists, namely the first bound host port. -/
theorem getPort_spec (c : Container) (e : Engine) (port : String) :
    (c.containerID = "" → (GetPort c e port).1 = .error "container not started") ∧
    (∀ pm, c.containerID ≠ "" → e.inspectPorts c.containerID = .ok pm →
      (∀ bs, lookupPorts pm (port ++ "/tcp") = some bs → bs = []) →
      (GetPort c e port).1 = .error ("no port mapping found for port " ++ port)) ∧
    (∀ h, (GetPort c e port).1 = .ok h →
      ∃ pm bs, e.inspectPorts c.containerID = .ok pm ∧
        lookupPorts pm (port ++ "/tcp") = some bs ∧ bs.head? = some h) := by
  refine ⟨?_, ?_, ?_⟩
  · intro h; simp [GetPort, h]
  · intro pm hid hinsp hnone
    cases hlook : lookupPorts pm (port ++ "/tcp") with
    | none => simp [GetPort, hid, hinsp, hlook]
    | some bs =>
      have hbs := hnone bs hlook
      subst hbs
      simp [GetPort, hid, hinsp, hlook]
  · intro h hok
    by_cases hid : c.containerID = ""
    · simp [GetPort, hid] at hok
    · cases hinsp : e.inspectPorts c.containerID with
      | error m => simp [GetPort, hid, hinsp] at hok
      | ok pm =>
        cases hlook : lookupPorts pm (port ++ "/tcp") with
        | none => simp [GetPort, hid, hinsp, hlook] at hok
        | some bs =>
          cases bs with
          | nil => simp [GetPort, hid, hinsp, hlook] at hok
          | cons b rest =>
            refine ⟨pm, b :: rest, rfl, hlook, ?_⟩
            simp [GetPort, hid, hinsp, hlook] at hok
            simp [hok]

/-- Witness for C7: before Start (no identifier assigned) GetPort fails
with the not-started error. -/
theorem getPort_spec_witness :
    (GetPort c2Handle okEngine "1433").1 = .error "container not started" := by
  exact (getPort_spec c2Handle okEngine "1433").1 rfl

/-- C8: the diagnostics routine always emits the failure reason first and
never fails: a state inspection failure, a log fetch failure and a log
read failure are each logged into the output and swallowed, and running
the routine on a failed path returns the original error unchanged. -/
theorem printLogsOnFailure_spec (c : Container) (e : Engine) (reason : String) :
    (PrintLogsOnFailure c e reason).head? = some ("Container startup failed: " ++ reason) ∧
    (∀ m, c.containerID ≠ "" → e.inspectState c.containerID = .error m →
      ("Failed to inspect container for status: " ++ m) ∈ PrintLogsOnFailure c e reason) ∧
    (∀ m, c.containerID ≠ "" → e.containerLogs c.containerID = .error m →
      ("Failed to retrieve container logs: " ++ ("failed to get container logs: " ++ m)) ∈
        PrintLogsOnFailure c e reason) ∧
    (∀ m, c.containerID ≠ "" → e.containerLogs c.containerID = .ok () →
      e.readLogs = .fail m →
      ("Failed to read container logs: " ++ m) ∈ PrintLogsOnFailure c e reason) ∧
    (∀ origErr : String, (startFailureReturn c e reason origErr).1 = .error origErr) := by
  refine ⟨?_, ?_, ?_, ?_, fun _ => rfl⟩
  · by_cases hid : c.containerID = ""
    · simp [PrintLogsOnFailure, hid]
    · cases hins : e.inspectState c.containerID <;>
        cases hlog : e.containerLogs c.containerID <;>
          cases hrd : e.readLogs <;>
            simp [PrintLogsOnFailure, Logs, hid, hins, hlog, hrd]
  · intro m hid hins
    cases hlog : e.containerLogs c.containerID <;>
      cases hrd : e.readLogs <;>
        simp [PrintLogsOnFailure, Logs, hid, hins, hlog, hrd]
  · intro m hid hlog
    cases hins : e.inspectState c.containerID <;>
      simp [PrintLogsOnFailure, Logs, hid, hins, hlog]
  · intro m hid hlog hrd
    cases hins : e.inspectState c.containerID <;>
      simp [PrintLogsOnFailure, Logs, hid, hins, hlog, hrd]

/-- Witness for C8: on the engine whose inspection and log fetch both
fail, both failures appear as logged lines in the output. -/
theorem printLogsOnFailure_spec_witness :
    ("Failed to inspect container for status: " ++ "ie") ∈
      PrintLogsOnFailure cWitnessHandle inspectFailEngine "r" ∧
    ("Failed to retrieve container logs: " ++ ("failed to get container logs: " ++ "le")) ∈
      PrintLogsOnFailure cWitnessHandle inspectFailEngine "r" := by
  have H := printLogsOnFailure_spec cWitnessHandle inspectFailEngine "r"
  exact ⟨H.2.1 "ie" (by decide) rfl, H.2.2.1 "le" (by decide) rfl⟩

/-- C9: IsRunning returns (false, nil) with no engine call when no
identifier has been assigned; with an identifier set it always issues the
state inspection and, when the inspection succeeds, returns exactly the
freshly reported running flag; the returned value never depends on the
previously cached running flag. -/
theorem isRunning_fresh_spec (c : Container) (e : Engine) :
    (c.containerID = "" → IsRunning c e = (.ok false, c, [])) ∧
    (c.containerID ≠ "" →
      (IsRunning c e).2.2 = [.inspectCall c.containerID] ∧
      (∀ st, e.inspectState c.containerID = .ok st →
        (IsRunning c e).1 = .ok st.running)) ∧
    (∀ b, (IsRunning { c with isRunning := b } e).1 = (IsRunning c e).1) := by
  refine ⟨?_, ?_, ?_⟩
  · intro h; simp [IsRunning, h]
  · intro h
    constructor
    · cases hins : e.inspectState c.containerID with
      | error m => simp [IsRunning, h, hins]
      | ok st => simp [IsRunning, h, hins]
    · intro st hins; simp [IsRunning, h, hins]
  · intro b
    by_cases h : c.containerID = ""
    · simp [IsRunning, h]
    · cases hins : e.inspectState c.containerID with
      | error m => simp [IsRunning, h, hins]
      | ok st => simp [IsRunning, h, hins]

/-- Witness for C9: with identifier abc and an engine reporting running,
IsRunning returns ok true. -/
theorem isRunning_fresh_spec_witness :
    (IsRunning cWitnessHandle okEngine).1 = .ok true := by
  have H := ((isRunning_fresh_spec cWitnessHandle okEngine).2.1 (by decide)).2
    runningState rfl
  simpa [runningState] using H

end container
